import Mathlib

/-!
Verification of the segment-recording controller in
`src/components/AudioRecorder.js`.

The component's React state and refs are embedded as one record
(`RecState`); in the source, each piece of state that participates in a
check is mirrored by a ref (`isRecordingRef`, `recordingRef`) precisely so
that checks see the current value, so state updates are modeled as taking
effect immediately.  Each controller function becomes a Lean function from
the state (plus the outcomes of the external capability calls it makes:
permission result, device-open result, stop/move failures, the clock value
used for timestamps) to the new state.  The native device is tracked
explicitly: `openHandles` is the list of native recording handles currently
open, `loadedSounds` the list of sound URIs currently loaded by the
playback device, and `openCalls` counts how many times
`Audio.Recording.createAsync` was invoked.  `Alert.alert` calls are
accumulated in `alerts`.

Modeling notes, each tied to a line of the source:
* `Audio.Recording.createAsync` outcomes are an `OpenResult`; a rejected
  promise is `OpenResult.failure` and is handled by the `catch` block of
  `startNewSegment`, which shows its own alert and calls `stopRecording()`
  without awaiting it.  That fire-and-forget call only touches state
  disjoint from what the caller writes afterwards, so running it to
  completion in place yields the same final state.
* `recording.stopAndUnloadAsync()` is modeled as releasing the native
  handle even when it reports an error: release of the native resource is
  delegated entirely to that call by the source.
* `Audio.requestPermissionsAsync` and `Audio.setAudioModeAsync` are modeled
  as non-throwing (the repository's test suite mocks them as resolving);
  consequently the `catch` block of `startRecording` is unreachable in the
  model, matching the source, where a rejected `createAsync` is caught
  inside `startNewSegment` and never propagates to `startRecording`.
* The one-second interval body and the five-second interval body run only
  while their interval is registered (`timerActive` / `intervalActive`).
* The `setOnPlaybackStatusUpdate` completion callback and the ~100ms
  settling delay in `handleSegmentSplit` have no state effect that any
  verified property depends on and are not modeled.
-/

namespace AudioRec

/-- A native recording handle produced by `Audio.Recording.createAsync`.
`hid` identifies the handle; `uri` is what `getURI()` will return once the
handle is stopped (`none` models a null URI). -/
structure Handle where
  hid : Nat
  uri : Option String
deriving DecidableEq

/-- A saved segment, as constructed in `saveCurrentSegment`.  `seq` is the
value of `segmentCountRef.current` used to build `fileName` and `id`. -/
structure Segment where
  id : String
  uri : String
  fileName : String
  timestamp : Nat
  seq : Nat
deriving DecidableEq

/-- `FileSystem.documentDirectory`. -/
def documentDirectory : String := "file:///documents/"

/-- The file name `recording_${segmentCountRef.current}_${timestamp}.m4a`. -/
def segFileName (seq ts : Nat) : String :=
  "recording_" ++ toString seq ++ "_" ++ toString ts ++ ".m4a"

/-- The segment record built in `saveCurrentSegment` after a successful
move: id `segment_${seq}_${timestamp}`, uri the destination path. -/
def mkSegment (seq ts : Nat) : Segment :=
  { id := "segment_" ++ toString seq ++ "_" ++ toString ts
    uri := documentDirectory ++ segFileName seq ts
    fileName := segFileName seq ts
    timestamp := ts
    seq := seq }

/-- The user-visible `Alert.alert` notifications of the component. -/
inductive Alert where
  /-- permission denied: `'권한 필요'`. -/
  | permissionNeeded
  /-- `startRecording`'s own catch: `'녹음을 시작할 수 없습니다'`.  Never
  produced by the model (see module comment): a rejected device open is
  caught inside `startNewSegment` and does not reach this handler. -/
  | startError
  /-- `startNewSegment`'s catch: `'새로운 녹음 세그먼트를 시작할 수 없습니다'`. -/
  | newSegmentError
  /-- stop summary: `'총 ${n}개의 파일이 저장되었습니다.'`. -/
  | recordingComplete (count : Nat)
  /-- `playSegment`'s catch: `'오디오를 재생할 수 없습니다'`. -/
  | playbackError
deriving DecidableEq

/-- Outcome of one `Audio.Recording.createAsync` call. -/
inductive OpenResult where
  | success (h : Handle)
  | failure
deriving DecidableEq

/-- The component state: React `useState` values, the mirroring refs, the
two interval registrations, and the tracked external-device state. -/
structure RecState where
  /-- `recording` state variable. -/
  recording : Option Handle
  /-- `recordingRef.current`. -/
  recordingRef : Option Handle
  /-- `isRecording` state variable. -/
  isRecording : Bool
  /-- `isRecordingRef.current`. -/
  isRecordingRef : Bool
  /-- `recordingSegments` state variable. -/
  recordingSegments : List Segment
  /-- `recordingTime` state variable (elapsed seconds). -/
  recordingTime : Nat
  /-- `segmentProgress` state variable. -/
  segmentProgress : Nat
  /-- `segmentCountRef.current`. -/
  segmentCount : Nat
  /-- whether `timerRef.current` holds a live 1-second interval. -/
  timerActive : Bool
  /-- whether `intervalRef.current` holds a live 5-second interval. -/
  intervalActive : Bool
  /-- `playingSegmentId` state variable. -/
  playingSegmentId : Option String
  /-- `soundObject` state variable, identified by its loaded URI. -/
  soundObject : Option String
  /-- URIs currently loaded in the native playback device. -/
  loadedSounds : List String
  /-- native recording handles currently open. -/
  openHandles : List Handle
  /-- number of `Audio.Recording.createAsync` calls made. -/
  openCalls : Nat
  /-- `Alert.alert` calls, in order. -/
  alerts : List Alert
deriving DecidableEq

/-- The component's initial state. -/
def initState : RecState :=
  { recording := none
    recordingRef := none
    isRecording := false
    isRecordingRef := false
    recordingSegments := []
    recordingTime := 0
    segmentProgress := 0
    segmentCount := 0
    timerActive := false
    intervalActive := false
    playingSegmentId := none
    soundObject := none
    loadedSounds := []
    openHandles := []
    openCalls := 0
    alerts := [] }

/-- `recordingRef.current || recording`, as read at the top of
`saveCurrentSegment`. -/
def currentHandle (s : RecState) : Option Handle :=
  match s.recordingRef with
  | some h => some h
  | none => s.recording

/-- `setRecording(null); recordingRef.current = null;` — the synchronous
prefix of `saveCurrentSegment` that clears the current-handle reference
before any asynchronous work. -/
def clearHandleRef (s : RecState) : RecState :=
  { s with recording := none, recordingRef := none }

/-- The asynchronous remainder of `saveCurrentSegment` acting on the
captured handle `cur`: `stopAndUnloadAsync` (releasing the native handle),
`getURI`, and on a non-null URI the `moveAsync` plus segment construction
and `segmentCountRef.current += 1`.  A throw of the stop or of the move is
caught and yields no segment. -/
def finalizeHandle (s : RecState) (cur : Handle) (now : Nat)
    (stopFails moveFails : Bool) : RecState × Option Segment :=
  let s2 := { s with openHandles := s.openHandles.filter (fun g => g.hid != cur.hid) }
  if stopFails then (s2, none)
  else
    match cur.uri with
    | none => (s2, none)
    | some _ =>
      if moveFails then (s2, none)
      else ({ s2 with segmentCount := s2.segmentCount + 1 },
            some (mkSegment s2.segmentCount now))

/-- `saveCurrentSegment`: returns `null` when no handle exists; otherwise
captures the handle, clears the reference, and finalizes. -/
def saveCurrentSegment (s : RecState) (now : Nat)
    (stopFails moveFails : Bool) : RecState × Option Segment :=
  match currentHandle s with
  | none => (s, none)
  | some cur => finalizeHandle (clearHandleRef s) cur now stopFails moveFails

/-- The tail of `stopRecording` after its synchronous flag, interval and
display resets: finalize the open handle if the `recording` state variable
holds one (appending any produced segment to the captured list), then
unconditionally emit the completion summary over the resulting list and
reset the sequence counter. -/
def stopFinalize (s1 : RecState) (now : Nat)
    (stopFails moveFails : Bool) : RecState :=
  let p :=
    if s1.recording.isSome then
      let r := saveCurrentSegment s1 now stopFails moveFails
      let fs := match r.2 with
                | some seg => s1.recordingSegments ++ [seg]
                | none => s1.recordingSegments
      ({ r.1 with recordingSegments := fs }, fs)
    else (s1, s1.recordingSegments)
  { p.1 with alerts := p.1.alerts ++ [Alert.recordingComplete p.2.length],
             segmentCount := 0 }

/-- The synchronous prefix of `stopRecording`: clear the recording flags,
cancel both intervals, reset the displayed time and progress. -/
def stopReset (s : RecState) : RecState :=
  { s with isRecording := false, isRecordingRef := false,
           intervalActive := false, timerActive := false,
           recordingTime := 0, segmentProgress := 0 }

/-- `stopRecording`: the synchronous resets followed by `stopFinalize`. -/
def stopRecording (s : RecState) (now : Nat)
    (stopFails moveFails : Bool) : RecState :=
  stopFinalize (stopReset s) now stopFails moveFails

/-- `startNewSegment`: a no-op when a handle reference is already present;
otherwise calls `createAsync`; on success stores the new handle in both the
state variable and the ref; on a rejected open, its catch shows the
new-segment alert and invokes `stopRecording`. -/
def startNewSegment (s : RecState) (o : OpenResult) (now : Nat)
    (stopFails moveFails : Bool) : RecState :=
  if s.recording.isSome || s.recordingRef.isSome then s
  else
    let s1 := { s with openCalls := s.openCalls + 1 }
    match o with
    | OpenResult.success h =>
      { s1 with recording := some h, recordingRef := some h,
                openHandles := s1.openHandles ++ [h] }
    | OpenResult.failure =>
      stopRecording { s1 with alerts := s1.alerts ++ [Alert.newSegmentError] }
        now stopFails moveFails

/-- `handleSegmentSplit`, the 5-second interval body: returns early unless
`isRecordingRef.current` and a handle reference are present; otherwise
finalizes the current segment, appends it if produced, resets the segment
progress, and (still recording) opens the next handle. -/
def handleSegmentSplit (s : RecState) (o : OpenResult) (now : Nat)
    (stopFails moveFails : Bool) : RecState :=
  if !s.isRecordingRef || (s.recording.isNone && s.recordingRef.isNone) then s
  else
    let r := saveCurrentSegment s now stopFails moveFails
    let s2 := match r.2 with
              | some seg => { r.1 with recordingSegments := r.1.recordingSegments ++ [seg] }
              | none => r.1
    let s3 := { s2 with segmentProgress := 0 }
    if s3.isRecordingRef then startNewSegment s3 o now stopFails moveFails else s3

/-- `startRecording`: on a denied permission shows the permission alert and
returns with the state otherwise unchanged; on grant sets the recording
flags, opens the first segment (whose failure path runs inside
`startNewSegment`), and then registers both intervals. -/
def startRecording (s : RecState) (granted : Bool) (o : OpenResult)
    (now : Nat) (stopFails moveFails : Bool) : RecState :=
  if !granted then { s with alerts := s.alerts ++ [Alert.permissionNeeded] }
  else
    let s1 := { s with isRecording := true, isRecordingRef := true }
    let s2 := startNewSegment s1 o now stopFails moveFails
    { s2 with timerActive := true, intervalActive := true }

/-- The 1-second interval body: while the interval is registered it
increments the elapsed time and advances the progress by one modulo 5. -/
def tickSecond (s : RecState) : RecState :=
  if s.timerActive then
    { s with recordingTime := s.recordingTime + 1,
             segmentProgress := (s.segmentProgress + 1) % 5 }
  else s

/-- The load-and-play tail of `playSegment`: `Audio.Sound.createAsync` with
`shouldPlay`; on success stores the sound and the playing id; a rejected
load is caught by `playSegment`'s catch, which only shows the playback
alert. -/
def playLoad (s : RecState) (seg : Segment) (createFails : Bool) : RecState :=
  if createFails then { s with alerts := s.alerts ++ [Alert.playbackError] }
  else
    { s with loadedSounds := s.loadedSounds ++ [seg.uri],
             soundObject := some seg.uri,
             playingSegmentId := some seg.id }

/-- `playSegment`: if a sound is loaded it is unloaded first (a throw there
is caught, showing only the alert); when the pressed segment is the one
playing, the playing id is cleared and the function returns; otherwise the
requested segment is loaded and played. -/
def playSegment (s : RecState) (seg : Segment)
    (unloadFails createFails : Bool) : RecState :=
  match s.soundObject with
  | some cur =>
    if unloadFails then { s with alerts := s.alerts ++ [Alert.playbackError] }
    else
      let s1 := { s with loadedSounds := s.loadedSounds.filter (fun u => u != cur),
                         soundObject := none }
      if s1.playingSegmentId = some seg.id then
        { s1 with playingSegmentId := none }
      else playLoad s1 seg createFails
  | none => playLoad s seg createFails

/-- The externally observable events of one interleaving: a 1-second tick,
a firing of the 5-second interval, a `startRecording` call, a
`stopRecording` call, a `playSegment` call — each carrying the outcomes of
the capability calls it makes. -/
inductive Ev where
  | tick
  | rotate (o : OpenResult) (now : Nat) (stopFails moveFails : Bool)
  | start (granted : Bool) (o : OpenResult) (now : Nat) (stopFails moveFails : Bool)
  | stop (now : Nat) (stopFails moveFails : Bool)
  | play (seg : Segment) (unloadFails createFails : Bool)

/-- One event of the controller.  The interval bodies fire only while their
interval is registered. -/
def step (s : RecState) : Ev → RecState
  | Ev.tick => tickSecond s
  | Ev.rotate o now sf mf =>
      if s.intervalActive then handleSegmentSplit s o now sf mf else s
  | Ev.start g o now sf mf => startRecording s g o now sf mf
  | Ev.stop now sf mf => stopRecording s now sf mf
  | Ev.play seg uf cf => playSegment s seg uf cf

/-- Run a list of events from a state. -/
def run (s : RecState) : List Ev → RecState
  | [] => s
  | e :: es => run (step s e) es

/-- Running an appended event list runs the two lists in sequence. -/
theorem run_append (s : RecState) (es fs : List Ev) :
    run s (es ++ fs) = run (run s es) fs := by
  induction es generalizing s with
  | nil => rfl
  | cons e es ih => simp [run, ih]

/-- Reachability invariant: the `recording` state variable and
`recordingRef` agree (the source writes them together at every site), the
native recorder has open exactly the handle the reference holds, the
playback device has loaded exactly the sound `soundObject` holds, and the
segment progress is below 5. -/
def Inv (s : RecState) : Prop :=
  s.recording = s.recordingRef
  ∧ s.openHandles = s.recordingRef.toList
  ∧ s.loadedSounds = s.soundObject.toList
  ∧ s.segmentProgress < 5

/-- When state and ref agree, the handle `saveCurrentSegment` reads is the
ref's. -/
theorem currentHandle_eq_ref (s : RecState) (h : s.recording = s.recordingRef) :
    currentHandle s = s.recordingRef := by
  unfold currentHandle
  cases href : s.recordingRef with
  | some hh => rfl
  | none => rw [h, href]

/-- Fields `saveCurrentSegment` never writes. -/
theorem save_untouched (s : RecState) (now : Nat) (sf mf : Bool) :
    (saveCurrentSegment s now sf mf).1.isRecording = s.isRecording
    ∧ (saveCurrentSegment s now sf mf).1.isRecordingRef = s.isRecordingRef
    ∧ (saveCurrentSegment s now sf mf).1.recordingSegments = s.recordingSegments
    ∧ (saveCurrentSegment s now sf mf).1.recordingTime = s.recordingTime
    ∧ (saveCurrentSegment s now sf mf).1.segmentProgress = s.segmentProgress
    ∧ (saveCurrentSegment s now sf mf).1.timerActive = s.timerActive
    ∧ (saveCurrentSegment s now sf mf).1.intervalActive = s.intervalActive
    ∧ (saveCurrentSegment s now sf mf).1.alerts = s.alerts
    ∧ (saveCurrentSegment s now sf mf).1.loadedSounds = s.loadedSounds
    ∧ (saveCurrentSegment s now sf mf).1.soundObject = s.soundObject
    ∧ (saveCurrentSegment s now sf mf).1.playingSegmentId = s.playingSegmentId
    ∧ (saveCurrentSegment s now sf mf).1.openCalls = s.openCalls := by
  unfold saveCurrentSegment
  cases hc : currentHandle s with
  | none => simp
  | some cur =>
    unfold finalizeHandle clearHandleRef
    cases sf with
    | true => simp
    | false =>
      cases hu : cur.uri with
      | none => simp [hu]
      | some u => cases mf <;> simp [hu]

/-- With a handle present, `saveCurrentSegment` clears both references and
removes the captured handle from the open natives. -/
theorem save_clears (s : RecState) (now : Nat) (sf mf : Bool) (cur : Handle)
    (hc : currentHandle s = some cur) :
    (saveCurrentSegment s now sf mf).1.recording = none
    ∧ (saveCurrentSegment s now sf mf).1.recordingRef = none
    ∧ (saveCurrentSegment s now sf mf).1.openHandles
        = s.openHandles.filter (fun g => g.hid != cur.hid) := by
  unfold saveCurrentSegment
  rw [hc]
  unfold finalizeHandle clearHandleRef
  cases sf with
  | true => simp
  | false =>
    cases hu : cur.uri with
    | none => simp [hu]
    | some u => cases mf <;> simp [hu]

/-- With no handle present, `saveCurrentSegment` is the identity. -/
theorem save_noop (s : RecState) (now : Nat) (sf mf : Bool)
    (hc : currentHandle s = none) :
    saveCurrentSegment s now sf mf = (s, none) := by
  unfold saveCurrentSegment
  rw [hc]

theorem inv_save (s : RecState) (now : Nat) (sf mf : Bool) (h : Inv s) :
    Inv (saveCurrentSegment s now sf mf).1 := by
  obtain ⟨h1, h2, h3, h4⟩ := h
  cases hc : currentHandle s with
  | none => rw [save_noop s now sf mf hc]; exact ⟨h1, h2, h3, h4⟩
  | some cur =>
    obtain ⟨e1, e2, e3⟩ := save_clears s now sf mf cur hc
    obtain ⟨_, _, _, _, e5, _, _, _, e9, e10, _, _⟩ := save_untouched s now sf mf
    have hr : s.recordingRef = some cur := by
      rw [← currentHandle_eq_ref s h1, hc]
    refine ⟨by rw [e1, e2], ?_, by rw [e9, e10, h3], by rw [e5]; exact h4⟩
    rw [e3, e2, h2, hr]
    simp

theorem inv_stopFinalize (s1 : RecState) (now : Nat) (sf mf : Bool)
    (h : Inv s1) : Inv (stopFinalize s1 now sf mf) := by
  obtain ⟨h1, h2, h3, h4⟩ := h
  obtain ⟨v1, v2, v3, v4⟩ := inv_save s1 now sf mf ⟨h1, h2, h3, h4⟩
  unfold stopFinalize
  cases hrec : s1.recording with
  | none =>
    try simp only [hrec]
    exact ⟨h1, h2, h3, h4⟩
  | some hh =>
    try simp only [hrec]
    cases hmatch : (saveCurrentSegment s1 now sf mf).2 with
    | none =>
      try simp only [hmatch]
      exact ⟨v1, v2, v3, v4⟩
    | some seg =>
      try simp only [hmatch]
      exact ⟨v1, v2, v3, v4⟩

theorem inv_stop (s : RecState) (now : Nat) (sf mf : Bool) (h : Inv s) :
    Inv (stopRecording s now sf mf) := by
  obtain ⟨h1, h2, h3, h4⟩ := h
  exact inv_stopFinalize _ now sf mf ⟨h1, h2, h3, by simp [stopReset]⟩

theorem inv_new (s : RecState) (o : OpenResult) (now : Nat) (sf mf : Bool)
    (h : Inv s) : Inv (startNewSegment s o now sf mf) := by
  obtain ⟨h1, h2, h3, h4⟩ := h
  unfold startNewSegment
  cases hrec : s.recording with
  | some hh => simpa using ⟨h1, h2, h3, h4⟩
  | none =>
    cases href : s.recordingRef with
    | some hh => simpa using ⟨h1, h2, h3, h4⟩
    | none =>
      simp only [hrec, href]
      cases o with
      | success hh =>
        refine ⟨rfl, ?_, h3, h4⟩
        simp [h2, href]
      | failure =>
        exact inv_stop _ now sf mf
          ⟨by simp [hrec, href], by simp [h2, href], h3, h4⟩

theorem inv_split (s : RecState) (o : OpenResult) (now : Nat) (sf mf : Bool)
    (h : Inv s) : Inv (handleSegmentSplit s o now sf mf) := by
  unfold handleSegmentSplit
  cases hg : (!s.isRecordingRef || (s.recording.isNone && s.recordingRef.isNone)) with
  | true => simpa using h
  | false =>
    simp only [hg]
    have ht := inv_save s now sf mf h
    obtain ⟨t1, t2, t3, t4⟩ := ht
    cases hmatch : (saveCurrentSegment s now sf mf).2 with
    | none =>
      try simp only [hmatch]
      cases hrr : (saveCurrentSegment s now sf mf).1.isRecordingRef with
      | true =>
        try simp only [hrr]
        exact inv_new _ o now sf mf ⟨t1, t2, t3, by norm_num⟩
      | false =>
        try simp only [hrr]
        exact ⟨t1, t2, t3, by norm_num⟩
    | some seg =>
      try simp only [hmatch]
      cases hrr : (saveCurrentSegment s now sf mf).1.isRecordingRef with
      | true =>
        try simp only [hrr]
        exact inv_new _ o now sf mf ⟨t1, t2, t3, by norm_num⟩
      | false =>
        try simp only [hrr]
        exact ⟨t1, t2, t3, by norm_num⟩

theorem inv_startRec (s : RecState) (g : Bool) (o : OpenResult) (now : Nat)
    (sf mf : Bool) (h : Inv s) : Inv (startRecording s g o now sf mf) := by
  obtain ⟨h1, h2, h3, h4⟩ := h
  unfold startRecording
  cases g with
  | false => exact ⟨h1, h2, h3, h4⟩
  | true =>
    have := inv_new { s with isRecording := true, isRecordingRef := true }
      o now sf mf ⟨h1, h2, h3, h4⟩
    exact this

theorem inv_tick (s : RecState) (h : Inv s) : Inv (tickSecond s) := by
  obtain ⟨h1, h2, h3, h4⟩ := h
  unfold tickSecond
  cases ht : s.timerActive with
  | false => exact ⟨h1, h2, h3, h4⟩
  | true => exact ⟨h1, h2, h3, Nat.mod_lt _ (by norm_num)⟩

/-- Failed load shows only the alert. -/
theorem playLoad_fail (s : RecState) (seg : Segment) :
    playLoad s seg true = { s with alerts := s.alerts ++ [Alert.playbackError] } := rfl

/-- Successful load stores the sound and the playing id. -/
theorem playLoad_ok (s : RecState) (seg : Segment) :
    playLoad s seg false =
      { s with loadedSounds := s.loadedSounds ++ [seg.uri],
               soundObject := some seg.uri,
               playingSegmentId := some seg.id } := rfl

/-- With no sound loaded, `playSegment` goes straight to loading. -/
theorem play_none_eq (s : RecState) (seg : Segment) (uf cf : Bool)
    (hs : s.soundObject = none) :
    playSegment s seg uf cf = playLoad s seg cf := by
  unfold playSegment
  rw [hs]

/-- A throw of the unload is caught: only the alert is shown. -/
theorem play_unload_fail (s : RecState) (seg : Segment) (cur : String) (cf : Bool)
    (hs : s.soundObject = some cur) :
    playSegment s seg true cf = { s with alerts := s.alerts ++ [Alert.playbackError] } := by
  unfold playSegment
  rw [hs]
  rfl

/-- Pressing the playing segment unloads it and clears the playing id. -/
theorem play_same_eq (s : RecState) (seg : Segment) (cur : String) (cf : Bool)
    (hs : s.soundObject = some cur) (hp : s.playingSegmentId = some seg.id) :
    playSegment s seg false cf =
      { s with loadedSounds := s.loadedSounds.filter (fun u => u != cur),
               soundObject := none, playingSegmentId := none } := by
  unfold playSegment
  rw [hs]
  simp only [Bool.false_eq_true, if_false]
  rw [if_pos hp]

/-- Pressing a different segment unloads the current sound and then loads
the requested one. -/
theorem play_diff_eq (s : RecState) (seg : Segment) (cur : String) (cf : Bool)
    (hs : s.soundObject = some cur) (hp : ¬ s.playingSegmentId = some seg.id) :
    playSegment s seg false cf =
      playLoad { s with loadedSounds := s.loadedSounds.filter (fun u => u != cur),
                        soundObject := none } seg cf := by
  unfold playSegment
  rw [hs]
  simp only [Bool.false_eq_true, if_false]
  rw [if_neg hp]

theorem inv_play (s : RecState) (seg : Segment) (uf cf : Bool) (h : Inv s) :
    Inv (playSegment s seg uf cf) := by
  obtain ⟨h1, h2, h3, h4⟩ := h
  cases hsound : s.soundObject with
  | none =>
    rw [play_none_eq s seg uf cf hsound]
    cases cf with
    | true => rw [playLoad_fail]; exact ⟨h1, h2, h3, h4⟩
    | false =>
      rw [playLoad_ok]
      refine ⟨h1, h2, ?_, h4⟩
      simp [h3, hsound]
  | some cur =>
    have hcl : s.loadedSounds.filter (fun u => u != cur) = [] := by
      rw [h3, hsound]
      simp
    cases uf with
    | true => rw [play_unload_fail s seg cur cf hsound]; exact ⟨h1, h2, h3, h4⟩
    | false =>
      by_cases hp : s.playingSegmentId = some seg.id
      · rw [play_same_eq s seg cur cf hsound hp]
        exact ⟨h1, h2, by simpa using hcl, h4⟩
      · rw [play_diff_eq s seg cur cf hsound hp]
        cases cf with
        | true => rw [playLoad_fail]; exact ⟨h1, h2, by simpa using hcl, h4⟩
        | false => rw [playLoad_ok]; exact ⟨h1, h2, by simp [hcl], h4⟩

theorem inv_step (s : RecState) (e : Ev) (h : Inv s) : Inv (step s e) := by
  cases e with
  | tick => exact inv_tick s h
  | rotate o now sf mf =>
    unfold step
    cases hi : s.intervalActive with
    | true => exact inv_split s o now sf mf h
    | false => exact h
  | start g o now sf mf => exact inv_startRec s g o now sf mf h
  | stop now sf mf => exact inv_stop s now sf mf h
  | play seg uf cf => exact inv_play s seg uf cf h

theorem inv_run (s : RecState) (evs : List Ev) (h : Inv s) : Inv (run s evs) := by
  induction evs generalizing s with
  | nil => exact h
  | cons e es ih => exact ih (step s e) (inv_step s e h)

theorem inv_init : Inv initState := ⟨rfl, rfl, rfl, by decide⟩

/-- Every state reachable from the initial state satisfies the invariant. -/
theorem inv_reach (evs : List Ev) : Inv (run initState evs) :=
  inv_run initState evs inv_init

/-- The handle opened for block `j` of a continuous recording; its URI is
non-null, `uriF j`. -/
def blockHandle (uriF : Nat → String) (j : Nat) : Handle :=
  ⟨j, some (uriF j)⟩

/-- One five-second block of a continuous recording: five one-second ticks
followed by the five-second interval firing; the finalize succeeds
(`getURI` non-null at clock `tF j`, move succeeds) and the reopen yields
the next handle. -/
def blockEvs (uriF : Nat → String) (tF : Nat → Nat) (j : Nat) : List Ev :=
  [Ev.tick, Ev.tick, Ev.tick, Ev.tick, Ev.tick,
   Ev.rotate (OpenResult.success (blockHandle uriF (j + 1))) (tF j) false false]

/-- The events of a continuous recording running for `k` blocks: a granted
start opening handle 0, then `k` five-second blocks. -/
def sessionEvs (uriF : Nat → String) (tF : Nat → Nat) : Nat → List Ev
  | 0 => [Ev.start true (OpenResult.success (blockHandle uriF 0)) 0 false false]
  | k + 1 => sessionEvs uriF tF k ++ blockEvs uriF tF k

/-- The controller state after `k` five-second blocks of a continuous
recording in which every finalize succeeds with a non-null URI. -/
def recordFor (uriF : Nat → String) (tF : Nat → Nat) (k : Nat) : RecState :=
  run initState (sessionEvs uriF tF k)

/-- The segment produced by rotation `j` of a continuous recording. -/
def segAt (tF : Nat → Nat) (j : Nat) : Segment := mkSegment j (tF j)

/-- Explicit form of the state after `k` blocks: handle `k` open, counter
at `k`, the segments of rotations `0..k-1` saved in order. -/
theorem recordFor_eq (uriF : Nat → String) (tF : Nat → Nat) (k : Nat) :
    recordFor uriF tF k =
      { recording := some (blockHandle uriF k)
        recordingRef := some (blockHandle uriF k)
        isRecording := true
        isRecordingRef := true
        recordingSegments := (List.range k).map (segAt tF)
        recordingTime := 5 * k
        segmentProgress := 0
        segmentCount := k
        timerActive := true
        intervalActive := true
        playingSegmentId := none
        soundObject := none
        loadedSounds := []
        openHandles := [blockHandle uriF k]
        openCalls := k + 1
        alerts := [] } := by
  induction k with
  | zero =>
    show run initState (sessionEvs uriF tF 0) = _
    simp only [sessionEvs, run, step, startRecording, startNewSegment, initState,
      tickSecond, List.range_zero, List.map_nil]
    rfl
  | succ k ih =>
    have h1 : recordFor uriF tF (k + 1) = run (recordFor uriF tF k) (blockEvs uriF tF k) := by
      unfold recordFor
      rw [sessionEvs, run_append]
    rw [h1, ih]
    simp only [blockEvs, run, step, tickSecond, handleSegmentSplit, saveCurrentSegment,
      currentHandle, clearHandleRef, finalizeHandle, startNewSegment, segAt, blockHandle,
      List.range_succ, List.map_append, List.map_cons, List.map_nil]
    simp [mkSegment, List.range_succ, segAt, Nat.mul_succ]

/-- Fields the finalize-and-summarize tail of `stopRecording` determines:
it never touches flags, intervals, time or progress, always zeroes the
sequence counter, and its last alert is the completion summary over the
final list. -/
theorem stopFinalize_fields (s1 : RecState) (now : Nat) (sf mf : Bool) :
    (stopFinalize s1 now sf mf).isRecording = s1.isRecording
    ∧ (stopFinalize s1 now sf mf).isRecordingRef = s1.isRecordingRef
    ∧ (stopFinalize s1 now sf mf).timerActive = s1.timerActive
    ∧ (stopFinalize s1 now sf mf).intervalActive = s1.intervalActive
    ∧ (stopFinalize s1 now sf mf).recordingTime = s1.recordingTime
    ∧ (stopFinalize s1 now sf mf).segmentProgress = s1.segmentProgress
    ∧ (stopFinalize s1 now sf mf).segmentCount = 0
    ∧ (stopFinalize s1 now sf mf).alerts
        = s1.alerts
          ++ [Alert.recordingComplete (stopFinalize s1 now sf mf).recordingSegments.length] := by
  obtain ⟨u1, u2, u3, u4, u5, u6, u7, u8, _, _, _, _⟩ := save_untouched s1 now sf mf
  unfold stopFinalize
  cases hrec : s1.recording with
  | none =>
    try simp only [hrec]
    simp
  | some hh =>
    try simp only [hrec]
    cases hmatch : (saveCurrentSegment s1 now sf mf).2 with
    | none =>
      try simp only [hmatch]
      simp [u1, u2, u4, u5, u6, u7, u8]
    | some seg =>
      try simp only [hmatch]
      simp [u1, u2, u4, u5, u6, u7, u8]

/-- What `stopRecording` guarantees on every input: flags cleared, both
intervals cancelled, time/progress/sequence counter reset, and the
completion summary over the final list emitted last. -/
theorem stop_fields (s : RecState) (now : Nat) (sf mf : Bool) :
    (stopRecording s now sf mf).isRecording = false
    ∧ (stopRecording s now sf mf).isRecordingRef = false
    ∧ (stopRecording s now sf mf).timerActive = false
    ∧ (stopRecording s now sf mf).intervalActive = false
    ∧ (stopRecording s now sf mf).recordingTime = 0
    ∧ (stopRecording s now sf mf).segmentProgress = 0
    ∧ (stopRecording s now sf mf).segmentCount = 0
    ∧ (stopRecording s now sf mf).alerts
        = s.alerts
          ++ [Alert.recordingComplete (stopRecording s now sf mf).recordingSegments.length] := by
  have h := stopFinalize_fields (stopReset s) now sf mf
  unfold stopRecording
  simpa [stopReset] using h

/-- Opening a new segment keeps a zero progress at zero (it either leaves
progress alone or runs `stopRecording`, which zeroes it). -/
theorem newSeg_progress0 (s : RecState) (o : OpenResult) (now : Nat) (sf mf : Bool)
    (h : s.segmentProgress = 0) :
    (startNewSegment s o now sf mf).segmentProgress = 0 := by
  unfold startNewSegment
  cases hg : (s.recording.isSome || s.recordingRef.isSome) with
  | true =>
    try simp only [hg]
    simpa using h
  | false =>
    try simp only [hg]
    cases o with
    | success hh => simpa using h
    | failure => exact (stop_fields _ now sf mf).2.2.2.2.2.1

/-- A rotation that proceeds (recording flag set, handle present) resets
the progress to zero, whatever else happens. -/
theorem split_progress0 (s : RecState) (o : OpenResult) (now : Nat) (sf mf : Bool)
    (hr : s.isRecordingRef = true)
    (hsome : (s.recording.isSome || s.recordingRef.isSome) = true) :
    (handleSegmentSplit s o now sf mf).segmentProgress = 0 := by
  have hguard : (!s.isRecordingRef || (s.recording.isNone && s.recordingRef.isNone)) = false := by
    cases hrec : s.recording <;> cases href : s.recordingRef <;>
      simp [hr, hrec, href] at hsome ⊢
  unfold handleSegmentSplit
  rw [hguard]
  simp only [Bool.false_eq_true, if_false]
  cases hmatch : (saveCurrentSegment s now sf mf).2 with
  | none =>
    try simp only [hmatch]
    cases hrr : (saveCurrentSegment s now sf mf).1.isRecordingRef with
    | true =>
      try simp only [hrr]
      exact newSeg_progress0 _ o now sf mf rfl
    | false =>
      try simp only [hrr]
      rfl
  | some seg =>
    try simp only [hmatch]
    cases hrr : (saveCurrentSegment s now sf mf).1.isRecordingRef with
    | true =>
      try simp only [hrr]
      exact newSeg_progress0 _ o now sf mf rfl
    | false =>
      try simp only [hrr]
      rfl

/-- A rotation whose reopen fails ends in `stopRecording` of a state whose
alert log already carries the new-segment failure alert. -/
theorem split_fail_abort (s : RecState) (now : Nat) (sf mf : Bool)
    (hr : s.isRecordingRef = true)
    (hsome : (s.recording.isSome || s.recordingRef.isSome) = true) :
    ∃ s4 : RecState,
      handleSegmentSplit s OpenResult.failure now sf mf = stopRecording s4 now sf mf
      ∧ s4.alerts = s.alerts ++ [Alert.newSegmentError] := by
  have hc : ∃ cur, currentHandle s = some cur := by
    unfold currentHandle
    cases hrec : s.recording <;> cases href : s.recordingRef <;>
      simp [hrec, href] at hsome ⊢
  obtain ⟨cur, hc⟩ := hc
  have hguard : (!s.isRecordingRef || (s.recording.isNone && s.recordingRef.isNone)) = false := by
    cases hrec : s.recording <;> cases href : s.recordingRef <;>
      simp [hr, hrec, href] at hsome ⊢
  obtain ⟨e1, e2, _⟩ := save_clears s now sf mf cur hc
  obtain ⟨_, u2, _, _, _, _, _, u8, _, _, _, _⟩ := save_untouched s now sf mf
  unfold handleSegmentSplit
  rw [hguard]
  simp only [Bool.false_eq_true, if_false]
  cases hmatch : (saveCurrentSegment s now sf mf).2 with
  | none =>
    try simp only [hmatch]
    rw [u2, hr]
    simp only [if_true]
    unfold startNewSegment
    rw [e1, e2]
    simp only [Option.isSome_none, Bool.or_false, Bool.false_eq_true, if_false]
    exact ⟨_, rfl, by simp [u8]⟩
  | some seg =>
    try simp only [hmatch]
    rw [u2, hr]
    simp only [if_true]
    unfold startNewSegment
    rw [e1, e2]
    simp only [Option.isSome_none, Bool.or_false, Bool.false_eq_true, if_false]
    exact ⟨_, rfl, by simp [u8]⟩

/-- C1: at every instant while a recording session is active, at most one
recording handle is open: in every reachable state the native recorder
holds at most one open handle; `startNewSegment` is a no-op when a handle
reference is already present; and `saveCurrentSegment` clears the
current-handle reference (state variable and ref) synchronously, before
the asynchronous finalize work acts on the captured handle. -/
theorem c1_no_overlap (evs : List Ev) (o : OpenResult) (now : Nat)
    (sf mf : Bool) (cur : Handle) :
    (run initState evs).openHandles.length ≤ 1
    ∧ (((run initState evs).recording.isSome || (run initState evs).recordingRef.isSome) = true →
        startNewSegment (run initState evs) o now sf mf = run initState evs)
    ∧ (currentHandle (run initState evs) = some cur →
        saveCurrentSegment (run initState evs) now sf mf
          = finalizeHandle (clearHandleRef (run initState evs)) cur now sf mf
        ∧ (clearHandleRef (run initState evs)).recording = none
        ∧ (clearHandleRef (run initState evs)).recordingRef = none) := by
  obtain ⟨h1, h2, h3, h4⟩ := inv_reach evs
  refine ⟨?_, ?_, ?_⟩
  · rw [h2]
    cases (run initState evs).recordingRef <;> simp
  · intro hg
    unfold startNewSegment
    rw [if_pos hg]
  · intro hc
    refine ⟨?_, rfl, rfl⟩
    unfold saveCurrentSegment
    rw [hc]

/-- The session used to witness C1: a granted start with handle 0 open. -/
def c1Evs : List Ev :=
  [Ev.start true (OpenResult.success ⟨0, some "mic-c1"⟩) 0 false false]

theorem c1_no_overlap_witness :
    currentHandle (run initState c1Evs) = some ⟨0, some "mic-c1"⟩
    ∧ ((run initState c1Evs).openHandles.length ≤ 1
      ∧ (((run initState c1Evs).recording.isSome
          || (run initState c1Evs).recordingRef.isSome) = true →
          startNewSegment (run initState c1Evs) OpenResult.failure 3 false false
            = run initState c1Evs)
      ∧ (currentHandle (run initState c1Evs) = some ⟨0, some "mic-c1"⟩ →
          saveCurrentSegment (run initState c1Evs) 3 false false
            = finalizeHandle (clearHandleRef (run initState c1Evs)) ⟨0, some "mic-c1"⟩ 3 false false
          ∧ (clearHandleRef (run initState c1Evs)).recording = none
          ∧ (clearHandleRef (run initState c1Evs)).recordingRef = none)) :=
  ⟨by decide, c1_no_overlap c1Evs OpenResult.failure 3 false false ⟨0, some "mic-c1"⟩⟩

/-- The start attempt in which permission is granted but opening the first
segment rejects. -/
def c2state : RecState := startRecording initState true OpenResult.failure 0 false false

/-- C2: evaluation at the failing input (permission granted, first device
open rejects).  As the claim says, `isRecording` ends false and no segment
exists — but contrary to the claim (and to the repository's own test,
which expects the `startRecording` catch alert), both intervals are left
running and a second notification (the completion summary for zero files)
is emitted: `startNewSegment` swallows the rejection, so `startRecording`
never reaches its rollback catch and proceeds to start both clocks. -/
theorem c2_start_failure_state :
    c2state.isRecording = false
    ∧ c2state.isRecordingRef = false
    ∧ c2state.recordingSegments = []
    ∧ c2state.openCalls = 1
    ∧ c2state.timerActive = true
    ∧ c2state.intervalActive = true
    ∧ c2state.alerts = [Alert.newSegmentError, Alert.recordingComplete 0] := by
  decide

/-- C3: a continuous recording of duration `D = 5 * k` seconds (every
rotation fires, every finalize succeeds with a non-null URI) produces
exactly `D / 5` segments by rotation, carrying sequence numbers
`0 .. D/5 - 1`, strictly increasing, with no duplicates. -/
theorem c3_rotation_count (uriF : Nat → String) (tF : Nat → Nat) (D k : Nat)
    (hD : D = 5 * k) (hk : 0 < k) :
    (recordFor uriF tF k).recordingSegments.length = D / 5
    ∧ (recordFor uriF tF k).recordingSegments.map Segment.seq = List.range (D / 5)
    ∧ ((recordFor uriF tF k).recordingSegments.map Segment.seq).Pairwise (· < ·)
    ∧ ((recordFor uriF tF k).recordingSegments.map Segment.seq).Nodup := by
  have hD5 : D / 5 = k := by omega
  have hmap : (recordFor uriF tF k).recordingSegments.map Segment.seq = List.range k := by
    rw [recordFor_eq]
    simp only [List.map_map]
    have hid : (Segment.seq ∘ segAt tF) = fun j => j := by
      funext j
      rfl
    rw [hid]
    simp
  refine ⟨?_, ?_, ?_, ?_⟩
  · have hlen := congrArg List.length hmap
    simp only [List.length_map, List.length_range] at hlen
    rw [hD5, hlen]
  · rw [hmap, hD5]
  · rw [hmap]
    exact List.pairwise_lt_range k
  · rw [hmap]
    exact List.nodup_range k

theorem c3_rotation_count_witness :
    (5 : Nat) = 5 * 1 ∧ 0 < 1
    ∧ ((recordFor (fun _ => "mic-c3") (fun j => j) 1).recordingSegments.length = 5 / 5
      ∧ (recordFor (fun _ => "mic-c3") (fun j => j) 1).recordingSegments.map Segment.seq
          = List.range (5 / 5)
      ∧ ((recordFor (fun _ => "mic-c3") (fun j => j) 1).recordingSegments.map Segment.seq).Pairwise (· < ·)
      ∧ ((recordFor (fun _ => "mic-c3") (fun j => j) 1).recordingSegments.map Segment.seq).Nodup) :=
  ⟨rfl, Nat.one_pos,
    c3_rotation_count (fun _ => "mic-c3") (fun j => j) 5 1 rfl Nat.one_pos⟩

/-- C4 counterexample: calling `stop()` in the initial state — not
recording, no open handle — is not a no-op: it emits a completion-summary
notification (`'총 0개의 파일이 저장되었습니다.'`). -/
theorem c4_counterexample :
    initState.isRecording = false
    ∧ currentHandle initState = none
    ∧ stopRecording initState 0 false false ≠ initState
    ∧ (stopRecording initState 0 false false).alerts = [Alert.recordingComplete 0] := by
  decide

/-- C4 (amended): calling `stop()` when not recording produces no
additional segment and leaves the segment list, handle references, native
devices and playback state unchanged (the flags, intervals, time and
progress it re-clears are already clear in such a state), but it does emit
one completion-summary notification, reporting the current cumulative
list length, and re-resets the sequence counter. -/
theorem c4_stop_not_recording (s : RecState) (now : Nat) (sf mf : Bool)
    (h1 : s.isRecording = false) (h2 : s.recording = none)
    (h3 : s.recordingRef = none) :
    (stopRecording s now sf mf).alerts
        = s.alerts ++ [Alert.recordingComplete s.recordingSegments.length]
    ∧ (stopRecording s now sf mf).recordingSegments = s.recordingSegments
    ∧ (stopRecording s now sf mf).recording = none
    ∧ (stopRecording s now sf mf).recordingRef = none
    ∧ (stopRecording s now sf mf).openHandles = s.openHandles
    ∧ (stopRecording s now sf mf).openCalls = s.openCalls
    ∧ (stopRecording s now sf mf).isRecording = false
    ∧ (stopRecording s now sf mf).timerActive = false
    ∧ (stopRecording s now sf mf).intervalActive = false
    ∧ (stopRecording s now sf mf).recordingTime = 0
    ∧ (stopRecording s now sf mf).segmentProgress = 0
    ∧ (stopRecording s now sf mf).segmentCount = 0
    ∧ (stopRecording s now sf mf).playingSegmentId = s.playingSegmentId
    ∧ (stopRecording s now sf mf).soundObject = s.soundObject := by
  unfold stopRecording stopFinalize stopReset
  simp [h2, h3]

theorem c4_stop_not_recording_witness :
    (initState.isRecording = false ∧ initState.recording = none
      ∧ initState.recordingRef = none)
    ∧ (stopRecording initState 0 false false).alerts
        = initState.alerts
          ++ [Alert.recordingComplete initState.recordingSegments.length] :=
  ⟨⟨rfl, rfl, rfl⟩,
    (c4_stop_not_recording initState 0 false false rfl rfl rfl).1⟩

/-- The two-session trace refuting C5: session one saves one segment,
session two saves one more. -/
def c5Evs : List Ev :=
  [Ev.start true (OpenResult.success ⟨0, some "mic-c5a"⟩) 0 false false,
   Ev.stop 11 false false,
   Ev.start true (OpenResult.success ⟨1, some "mic-c5b"⟩) 0 false false,
   Ev.stop 22 false false]

/-- The state between the two sessions of `c5Evs`. -/
def c5Mid : RecState := run initState (c5Evs.take 2)

/-- The state after both sessions of `c5Evs`. -/
def c5End : RecState := run initState c5Evs

/-- C5 counterexample: after the first session one segment exists; the
second session finalizes exactly one more; yet the second session's
completion summary reports 2 — the cumulative list length across sessions
— not the per-session count 1. -/
theorem c5_counterexample :
    c5Mid.recordingSegments.length = 1
    ∧ c5Mid.alerts.getLast? = some (Alert.recordingComplete 1)
    ∧ c5End.recordingSegments.length = 2
    ∧ c5End.alerts.getLast? = some (Alert.recordingComplete 2) := by
  decide

/-- C5 (amended): the completion summary emitted by `stop()` reports the
length of the cumulative segment list as it stands after the stop — the
list is never cleared on a new start, so across sessions this is the total
across all sessions, which equals the per-session count only when the list
was empty at session start. -/
theorem c5_summary_total (s : RecState) (now : Nat) (sf mf : Bool) :
    (stopRecording s now sf mf).alerts.getLast?
      = some (Alert.recordingComplete
          (stopRecording s now sf mf).recordingSegments.length) := by
  obtain ⟨_, _, _, _, _, _, _, f8⟩ := stop_fields s now sf mf
  rw [f8]
  simp

/-- C6: `progressInSegment` is a natural number below 5 in every reachable
state; while the one-second interval runs, a tick advances it by one
modulo 5; `stopRecording` resets it to 0; and a rotation that proceeds
(recording with a handle present) resets it to 0. -/
theorem c6_progress_cycle (evs : List Ev) (o : OpenResult) (now : Nat) (sf mf : Bool) :
    (run initState evs).segmentProgress < 5
    ∧ ((run initState evs).timerActive = true →
        (tickSecond (run initState evs)).segmentProgress
          = ((run initState evs).segmentProgress + 1) % 5)
    ∧ (stopRecording (run initState evs) now sf mf).segmentProgress = 0
    ∧ ((run initState evs).isRecordingRef = true →
        ((run initState evs).recording.isSome
          || (run initState evs).recordingRef.isSome) = true →
        (handleSegmentSplit (run initState evs) o now sf mf).segmentProgress = 0) := by
  refine ⟨(inv_reach evs).2.2.2, ?_, ?_, ?_⟩
  · intro ht
    unfold tickSecond
    rw [if_pos ht]
  · exact (stop_fields _ now sf mf).2.2.2.2.2.1
  · intro hr hsome
    exact split_progress0 _ o now sf mf hr hsome

/-- The session used to witness C6: one granted start, two ticks. -/
def c6Evs : List Ev :=
  [Ev.start true (OpenResult.success ⟨0, some "mic-c6"⟩) 0 false false,
   Ev.tick, Ev.tick]

theorem c6_progress_cycle_witness :
    ((run initState c6Evs).timerActive = true
      ∧ (run initState c6Evs).isRecordingRef = true
      ∧ ((run initState c6Evs).recording.isSome
          || (run initState c6Evs).recordingRef.isSome) = true)
    ∧ ((run initState c6Evs).segmentProgress < 5
      ∧ ((run initState c6Evs).timerActive = true →
          (tickSecond (run initState c6Evs)).segmentProgress
            = ((run initState c6Evs).segmentProgress + 1) % 5)
      ∧ (stopRecording (run initState c6Evs) 9 false false).segmentProgress = 0
      ∧ ((run initState c6Evs).isRecordingRef = true →
          ((run initState c6Evs).recording.isSome
            || (run initState c6Evs).recordingRef.isSome) = true →
          (handleSegmentSplit (run initState c6Evs) OpenResult.failure 9 false false).segmentProgress
            = 0)) :=
  ⟨by decide, c6_progress_cycle c6Evs OpenResult.failure 9 false false⟩

/-- The trace refuting C7: play `segment_0_11`, then toggle
`segment_0_22` with the load failing. -/
def c7Evs : List Ev :=
  [Ev.start true (OpenResult.success ⟨0, some "mic-c7a"⟩) 0 false false,
   Ev.stop 11 false false,
   Ev.start true (OpenResult.success ⟨1, some "mic-c7b"⟩) 0 false false,
   Ev.stop 22 false false,
   Ev.play (mkSegment 0 11) false false,
   Ev.play (mkSegment 0 22) false true]

/-- C7 counterexample: while `segment_0_11` is playing, toggling
`segment_0_22` fails at load; the playback-failure alert is shown and the
sound object is gone, but `playingSegmentId` still holds the previous
segment's id — it is not left cleared. -/
theorem c7_counterexample :
    (run initState c7Evs).alerts.getLast? = some Alert.playbackError
    ∧ (run initState c7Evs).soundObject = none
    ∧ (run initState c7Evs).playingSegmentId = some (mkSegment 0 11).id
    ∧ (run initState c7Evs).playingSegmentId.isSome = true := by
  decide

/-- C7 (amended): when loading or starting playback fails, one
`PlaybackFailure` notification is reported and no sound remains loaded or
referenced; `playingSegmentId` is left cleared when nothing was playing
before the toggle, but when a different segment was playing before the
failed toggle, its id remains in `playingSegmentId` (stale). -/
theorem c7_playback_failure (evs : List Ev) (b : Segment) (ua : String) :
    ((run initState evs).soundObject = none →
      (run initState evs).playingSegmentId = none →
        (playSegment (run initState evs) b false true).playingSegmentId = none
        ∧ (playSegment (run initState evs) b false true).soundObject = none
        ∧ (playSegment (run initState evs) b false true).loadedSounds = []
        ∧ (playSegment (run initState evs) b false true).alerts
            = (run initState evs).alerts ++ [Alert.playbackError])
    ∧ ((run initState evs).soundObject = some ua →
       ¬ (run initState evs).playingSegmentId = some b.id →
        (playSegment (run initState evs) b false true).playingSegmentId
            = (run initState evs).playingSegmentId
        ∧ (playSegment (run initState evs) b false true).soundObject = none
        ∧ (playSegment (run initState evs) b false true).loadedSounds = []
        ∧ (playSegment (run initState evs) b false true).alerts
            = (run initState evs).alerts ++ [Alert.playbackError]) := by
  obtain ⟨h1, h2, h3, h4⟩ := inv_reach evs
  constructor
  · intro hsn hpn
    rw [play_none_eq _ b false true hsn, playLoad_fail]
    refine ⟨hpn, hsn, ?_, rfl⟩
    rw [h3, hsn]
    rfl
  · intro hsa hnb
    rw [play_diff_eq _ b ua true hsa hnb, playLoad_fail]
    refine ⟨rfl, rfl, ?_, rfl⟩
    rw [h3, hsa]
    simp

theorem c7_playback_failure_witness :
    ((run initState (c7Evs.take 5)).soundObject = some (mkSegment 0 11).uri
      ∧ ¬ (run initState (c7Evs.take 5)).playingSegmentId = some (mkSegment 0 22).id)
    ∧ (((run initState (c7Evs.take 5)).soundObject = none →
        (run initState (c7Evs.take 5)).playingSegmentId = none →
          (playSegment (run initState (c7Evs.take 5)) (mkSegment 0 22) false true).playingSegmentId = none
          ∧ (playSegment (run initState (c7Evs.take 5)) (mkSegment 0 22) false true).soundObject = none
          ∧ (playSegment (run initState (c7Evs.take 5)) (mkSegment 0 22) false true).loadedSounds = []
          ∧ (playSegment (run initState (c7Evs.take 5)) (mkSegment 0 22) false true).alerts
              = (run initState (c7Evs.take 5)).alerts ++ [Alert.playbackError])
      ∧ ((run initState (c7Evs.take 5)).soundObject = some (mkSegment 0 11).uri →
         ¬ (run initState (c7Evs.take 5)).playingSegmentId = some (mkSegment 0 22).id →
          (playSegment (run initState (c7Evs.take 5)) (mkSegment 0 22) false true).playingSegmentId
              = (run initState (c7Evs.take 5)).playingSegmentId
          ∧ (playSegment (run initState (c7Evs.take 5)) (mkSegment 0 22) false true).soundObject = none
          ∧ (playSegment (run initState (c7Evs.take 5)) (mkSegment 0 22) false true).loadedSounds = []
          ∧ (playSegment (run initState (c7Evs.take 5)) (mkSegment 0 22) false true).alerts
              = (run initState (c7Evs.take 5)).alerts ++ [Alert.playbackError])) :=
  ⟨by decide,
    c7_playback_failure (c7Evs.take 5) (mkSegment 0 22) (mkSegment 0 11).uri⟩

/-- C8: toggling the segment that is playing stops and unloads playback
and clears `playingSegmentId`; toggling segment `b` while segment `a` is
playing unloads `a` first and then loads and plays `b`, setting
`playingSegmentId` to `b`'s id (replace semantics). -/
theorem c8_playback_toggle (evs : List Ev) (a b : Segment) (ua : String) :
    ((run initState evs).soundObject = some ua →
     (run initState evs).playingSegmentId = some a.id →
        (playSegment (run initState evs) a false false).playingSegmentId = none
        ∧ (playSegment (run initState evs) a false false).soundObject = none
        ∧ (playSegment (run initState evs) a false false).loadedSounds = [])
    ∧ ((run initState evs).soundObject = some ua →
       (run initState evs).playingSegmentId = some a.id →
       ¬ a.id = b.id →
        (playSegment (run initState evs) b false false).playingSegmentId = some b.id
        ∧ (playSegment (run initState evs) b false false).soundObject = some b.uri
        ∧ (playSegment (run initState evs) b false false).loadedSounds = [b.uri]) := by
  obtain ⟨h1, h2, h3, h4⟩ := inv_reach evs
  constructor
  · intro hsa hpa
    rw [play_same_eq _ a ua false hsa hpa]
    refine ⟨rfl, rfl, ?_⟩
    rw [h3, hsa]
    simp
  · intro hsa hpa hne
    have hnb : ¬ (run initState evs).playingSegmentId = some b.id := by
      rw [hpa]
      intro hcontra
      exact hne (Option.some_injective _ hcontra)
    rw [play_diff_eq _ b ua false hsa hnb, playLoad_ok]
    refine ⟨rfl, rfl, ?_⟩
    rw [h3, hsa]
    simp

/-- The trace used to witness C8: two saved segments, the first playing. -/
def c8Evs : List Ev :=
  [Ev.start true (OpenResult.success ⟨0, some "mic-c8a"⟩) 0 false false,
   Ev.stop 31 false false,
   Ev.start true (OpenResult.success ⟨1, some "mic-c8b"⟩) 0 false false,
   Ev.stop 32 false false,
   Ev.play (mkSegment 0 31) false false]

theorem c8_playback_toggle_witness :
    ((run initState c8Evs).soundObject = some (mkSegment 0 31).uri
      ∧ (run initState c8Evs).playingSegmentId = some (mkSegment 0 31).id
      ∧ ¬ (mkSegment 0 31).id = (mkSegment 0 32).id)
    ∧ (((run initState c8Evs).soundObject = some (mkSegment 0 31).uri →
        (run initState c8Evs).playingSegmentId = some (mkSegment 0 31).id →
          (playSegment (run initState c8Evs) (mkSegment 0 31) false false).playingSegmentId = none
          ∧ (playSegment (run initState c8Evs) (mkSegment 0 31) false false).soundObject = none
          ∧ (playSegment (run initState c8Evs) (mkSegment 0 31) false false).loadedSounds = [])
      ∧ ((run initState c8Evs).soundObject = some (mkSegment 0 31).uri →
         (run initState c8Evs).playingSegmentId = some (mkSegment 0 31).id →
         ¬ (mkSegment 0 31).id = (mkSegment 0 32).id →
          (playSegment (run initState c8Evs) (mkSegment 0 32) false false).playingSegmentId
              = some (mkSegment 0 32).id
          ∧ (playSegment (run initState c8Evs) (mkSegment 0 32) false false).soundObject
              = some (mkSegment 0 32).uri
          ∧ (playSegment (run initState c8Evs) (mkSegment 0 32) false false).loadedSounds
              = [(mkSegment 0 32).uri])) :=
  ⟨by decide,
    c8_playback_toggle c8Evs (mkSegment 0 31) (mkSegment 0 32) (mkSegment 0 31).uri⟩

/-- C9: when the permission request resolves to denied, `startRecording`
returns the old state with exactly one permission alert appended — so
`isRecording` stays false, no device-open call occurs (`openCalls` is
unchanged), no interval is started, and every other piece of session state
is left unchanged. -/
theorem c9_permission_denied (s : RecState) (o : OpenResult) (now : Nat)
    (sf mf : Bool) (h : s.isRecording = false) :
    startRecording s false o now sf mf
      = { s with alerts := s.alerts ++ [Alert.permissionNeeded] }
    ∧ (startRecording s false o now sf mf).isRecording = false
    ∧ (startRecording s false o now sf mf).openCalls = s.openCalls
    ∧ (startRecording s false o now sf mf).timerActive = s.timerActive
    ∧ (startRecording s false o now sf mf).intervalActive = s.intervalActive :=
  ⟨rfl, h, rfl, rfl, rfl⟩

theorem c9_permission_denied_witness :
    initState.isRecording = false
    ∧ (startRecording initState false OpenResult.failure 0 false false
        = { initState with alerts := initState.alerts ++ [Alert.permissionNeeded] }
      ∧ (startRecording initState false OpenResult.failure 0 false false).isRecording = false
      ∧ (startRecording initState false OpenResult.failure 0 false false).openCalls
          = initState.openCalls
      ∧ (startRecording initState false OpenResult.failure 0 false false).timerActive
          = initState.timerActive
      ∧ (startRecording initState false OpenResult.failure 0 false false).intervalActive
          = initState.intervalActive) :=
  ⟨rfl, c9_permission_denied initState OpenResult.failure 0 false false rfl⟩

/-- C10: when opening the next handle fails during a mid-session rotation
(recording flag set, handle present), the controller aborts the whole
session via `stopRecording`: both recording flags become false, both
intervals are cancelled, elapsed time, progress and the sequence counter
are reset, and the new-segment failure alert followed by the stop-summary
notification are emitted. -/
theorem c10_rotation_abort (s : RecState) (now : Nat) (sf mf : Bool)
    (hr : s.isRecordingRef = true)
    (hsome : (s.recording.isSome || s.recordingRef.isSome) = true) :
    (handleSegmentSplit s OpenResult.failure now sf mf).isRecording = false
    ∧ (handleSegmentSplit s OpenResult.failure now sf mf).isRecordingRef = false
    ∧ (handleSegmentSplit s OpenResult.failure now sf mf).timerActive = false
    ∧ (handleSegmentSplit s OpenResult.failure now sf mf).intervalActive = false
    ∧ (handleSegmentSplit s OpenResult.failure now sf mf).recordingTime = 0
    ∧ (handleSegmentSplit s OpenResult.failure now sf mf).segmentProgress = 0
    ∧ (handleSegmentSplit s OpenResult.failure now sf mf).segmentCount = 0
    ∧ ∃ n, (handleSegmentSplit s OpenResult.failure now sf mf).alerts
        = s.alerts ++ [Alert.newSegmentError, Alert.recordingComplete n] := by
  obtain ⟨s4, heq, halerts⟩ := split_fail_abort s now sf mf hr hsome
  obtain ⟨f1, f2, f3, f4, f5, f6, f7, f8⟩ := stop_fields s4 now sf mf
  rw [heq]
  refine ⟨f1, f2, f3, f4, f5, f6, f7,
    ⟨(stopRecording s4 now sf mf).recordingSegments.length, ?_⟩⟩
  rw [f8, halerts]
  simp

/-- The mid-session state used to witness C10. -/
def c10Evs : List Ev :=
  [Ev.start true (OpenResult.success ⟨0, some "mic-c10"⟩) 0 false false,
   Ev.tick, Ev.tick, Ev.tick, Ev.tick, Ev.tick]

theorem c10_rotation_abort_witness :
    ((run initState c10Evs).isRecordingRef = true
      ∧ ((run initState c10Evs).recording.isSome
          || (run initState c10Evs).recordingRef.isSome) = true)
    ∧ ((handleSegmentSplit (run initState c10Evs) OpenResult.failure 5 false false).isRecording = false
      ∧ (handleSegmentSplit (run initState c10Evs) OpenResult.failure 5 false false).isRecordingRef = false
      ∧ (handleSegmentSplit (run initState c10Evs) OpenResult.failure 5 false false).timerActive = false
      ∧ (handleSegmentSplit (run initState c10Evs) OpenResult.failure 5 false false).intervalActive = false
      ∧ (handleSegmentSplit (run initState c10Evs) OpenResult.failure 5 false false).recordingTime = 0
      ∧ (handleSegmentSplit (run initState c10Evs) OpenResult.failure 5 false false).segmentProgress = 0
      ∧ (handleSegmentSplit (run initState c10Evs) OpenResult.failure 5 false false).segmentCount = 0
      ∧ ∃ n, (handleSegmentSplit (run initState c10Evs) OpenResult.failure 5 false false).alerts
          = (run initState c10Evs).alerts
            ++ [Alert.newSegmentError, Alert.recordingComplete n]) :=
  ⟨by decide,
    c10_rotation_abort (run initState c10Evs) 5 false false (by decide) (by decide)⟩

end AudioRec
